import Mathlib

/-!
# Verification of the go-bsbmp sensor driver (Bosch BMP180/BMP280/BME280/BMP388)

A shallow embedding, in Lean 4, of the arithmetic and control logic of the
`bsbmp` Go package: fixed-point compensation formulas, calibration-coefficient
decoding and validity checking, signature recognition, the bounded busy-poll
loop, and the construction of a sensor handle.

Go machine integers are modelled as `Int` (signed) or `Nat` (unsigned) with
explicit two's-complement wrapping (`wrap16`/`wrap32`/`wrap64`) applied after
each operation of the corresponding width, exactly where the Go code performs
8-, 16-, 32- or 64-bit arithmetic.  Go's arithmetic right shift on signed
integers is floor division by a power of two (`sar`); Go's signed division
truncates toward zero (`Int.tdiv`).  Bytes are `Fin 256`.  Go's
`(value, error)` returns are modelled by `Except String`; a Go `nil` error
together with a value is `Except.ok`, a non-nil error is `Except.error`.
-/

namespace Bsbmp

/-- A byte, as read from an i2c register. -/
abbrev Byte := Fin 256

/-- Error values; the Go code returns `error` values built from strings. -/
abbrev Err := String

/-- Two's-complement wrap to a signed 16-bit integer (Go `int16` overflow). -/
def wrap16 (x : Int) : Int := (x + 2 ^ 15) % 2 ^ 16 - 2 ^ 15

/-- Two's-complement wrap to a signed 32-bit integer (Go `int32` overflow). -/
def wrap32 (x : Int) : Int := (x + 2 ^ 31) % 2 ^ 32 - 2 ^ 31

/-- Two's-complement wrap to a signed 64-bit integer (Go `int64` overflow). -/
def wrap64 (x : Int) : Int := (x + 2 ^ 63) % 2 ^ 64 - 2 ^ 63

/-- Arithmetic right shift: Go `x >> n` on a signed integer is floor
division by `2 ^ n`. -/
def sar (x : Int) (n : Nat) : Int := Int.fdiv x (2 ^ n)

/-- Reinterpret a 16-bit pattern (`0 ≤ p < 2^16`) as a Go `int16` value. -/
def toInt16 (p : Nat) : Int := if p < 2 ^ 15 then (p : Int) else (p : Int) - 2 ^ 16

/-- Reinterpret an 8-bit pattern (`0 ≤ p < 2^8`) as a Go `int8` value. -/
def toInt8 (p : Nat) : Int := if p < 2 ^ 7 then (p : Int) else (p : Int) - 2 ^ 8

/-- Go `uint16(x)` conversion of a signed value: the low 16 bits, unsigned. -/
def u16cast (x : Int) : Nat := (x % 2 ^ 16).toNat

/-- Unique BMP280 calibration coefficients: the raw register bytes
`0x88 … 0x9F` (struct `CoeffBMP280` of the source). -/
structure CoeffBMP280 where
  COEF_88 : Byte
  COEF_89 : Byte
  COEF_8A : Byte
  COEF_8B : Byte
  COEF_8C : Byte
  COEF_8D : Byte
  COEF_8E : Byte
  COEF_8F : Byte
  COEF_90 : Byte
  COEF_91 : Byte
  COEF_92 : Byte
  COEF_93 : Byte
  COEF_94 : Byte
  COEF_95 : Byte
  COEF_96 : Byte
  COEF_97 : Byte
  COEF_98 : Byte
  COEF_99 : Byte
  COEF_9A : Byte
  COEF_9B : Byte
  COEF_9C : Byte
  COEF_9D : Byte
  COEF_9E : Byte
  COEF_9F : Byte
deriving DecidableEq

/-- `uint16(hi)<<8 | uint16(lo)` for bytes: the bit-or of disjoint bit
ranges equals `hi * 256 + lo`. -/
def pack16 (hi lo : Byte) : Nat := hi.val * 256 + lo.val

def CoeffBMP280.dig_T1 (v : CoeffBMP280) : Nat := pack16 v.COEF_89 v.COEF_88

def CoeffBMP280.dig_T2 (v : CoeffBMP280) : Int := toInt16 (pack16 v.COEF_8B v.COEF_8A)

def CoeffBMP280.dig_T3 (v : CoeffBMP280) : Int := toInt16 (pack16 v.COEF_8D v.COEF_8C)

def CoeffBMP280.dig_P1 (v : CoeffBMP280) : Nat := pack16 v.COEF_8F v.COEF_8E

def CoeffBMP280.dig_P2 (v : CoeffBMP280) : Int := toInt16 (pack16 v.COEF_91 v.COEF_90)

def CoeffBMP280.dig_P3 (v : CoeffBMP280) : Int := toInt16 (pack16 v.COEF_93 v.COEF_92)

def CoeffBMP280.dig_P4 (v : CoeffBMP280) : Int := toInt16 (pack16 v.COEF_95 v.COEF_94)

def CoeffBMP280.dig_P5 (v : CoeffBMP280) : Int := toInt16 (pack16 v.COEF_97 v.COEF_96)

def CoeffBMP280.dig_P6 (v : CoeffBMP280) : Int := toInt16 (pack16 v.COEF_99 v.COEF_98)

def CoeffBMP280.dig_P7 (v : CoeffBMP280) : Int := toInt16 (pack16 v.COEF_9B v.COEF_9A)

def CoeffBMP280.dig_P8 (v : CoeffBMP280) : Int := toInt16 (pack16 v.COEF_9D v.COEF_9C)

def CoeffBMP280.dig_P9 (v : CoeffBMP280) : Int := toInt16 (pack16 v.COEF_9F v.COEF_9E)

/-- The `t_fine` intermediate of `SensorBMP280.ReadTemperatureMult100C` /
`ReadPressureMult10Pa` (identical text in both): int32 arithmetic on the
uncompensated temperature `ut` and the `dig_T1..dig_T3` coefficients.

    var1 := ((ut>>3 - int32(dig_T1())<<1) * int32(dig_T2())) >> 11
    var2 := (((ut>>4 - int32(dig_T1())) * (ut>>4 - int32(dig_T1()))) >> 12 *
        int32(dig_T3())) >> 14
    tFine := var1 + var2
-/
def tFineCore (t1 : Nat) (t2 t3 ut : Int) : Int :=
  let var1 := sar (wrap32 (wrap32 (sar ut 3 - wrap32 ((t1 : Int) * 2)) * t2)) 11
  let d := wrap32 (sar ut 4 - (t1 : Int))
  let var2 := sar (wrap32 (sar (wrap32 (d * d)) 12 * t3)) 14
  wrap32 (var1 + var2)

def SensorBMP280.tFine (c : CoeffBMP280) (ut : Int) : Int :=
  tFineCore c.dig_T1 c.dig_T2 c.dig_T3 ut

/-- The pure fixed-point computation of `SensorBMP280.ReadTemperatureMult100C`
(hundredths of a degree Celsius): `t := (tFine*5 + 128) >> 8`. -/
def SensorBMP280.compTemperatureMult100C (c : CoeffBMP280) (ut : Int) : Int :=
  let tFine := SensorBMP280.tFine c ut
  sar (wrap32 (wrap32 (tFine * 5) + 128)) 8

/-- The BMP280 coefficient block holding the datasheet worked-example values
`dig_T1 = 27504`, `dig_T2 = 26435`, `dig_T3 = -1000` (little-endian byte
pairs at `0x88..0x8D`); the remaining (pressure) bytes are irrelevant to the
temperature path and set to zero. -/
def goldenCoeffBMP280 : CoeffBMP280 where
  COEF_88 := 0x70
  COEF_89 := 0x6B
  COEF_8A := 0x43
  COEF_8B := 0x67
  COEF_8C := 0x18
  COEF_8D := 0xFC
  COEF_8E := 0
  COEF_8F := 0
  COEF_90 := 0
  COEF_91 := 0
  COEF_92 := 0
  COEF_93 := 0
  COEF_94 := 0
  COEF_95 := 0
  COEF_96 := 0
  COEF_97 := 0
  COEF_98 := 0
  COEF_99 := 0
  COEF_9A := 0
  COEF_9B := 0
  COEF_9C := 0
  COEF_9D := 0
  COEF_9E := 0
  COEF_9F := 0

/-- Unique BMP180 calibration coefficients: the raw register bytes
`0xAA … 0xBF` (struct `CoeffBMP180` of the source); the BMP180 packs its
16-bit fields big-endian (first byte is the MSB). -/
structure CoeffBMP180 where
  COEF_AA : Byte
  COEF_AB : Byte
  COEF_AC : Byte
  COEF_AD : Byte
  COEF_AE : Byte
  COEF_AF : Byte
  COEF_B0 : Byte
  COEF_B1 : Byte
  COEF_B2 : Byte
  COEF_B3 : Byte
  COEF_B4 : Byte
  COEF_B5 : Byte
  COEF_B6 : Byte
  COEF_B7 : Byte
  COEF_B8 : Byte
  COEF_B9 : Byte
  COEF_BA : Byte
  COEF_BB : Byte
  COEF_BC : Byte
  COEF_BD : Byte
  COEF_BE : Byte
  COEF_BF : Byte
deriving DecidableEq

def CoeffBMP180.dig_AC1 (v : CoeffBMP180) : Int := toInt16 (pack16 v.COEF_AA v.COEF_AB)

def CoeffBMP180.dig_AC2 (v : CoeffBMP180) : Int := toInt16 (pack16 v.COEF_AC v.COEF_AD)

def CoeffBMP180.dig_AC3 (v : CoeffBMP180) : Int := toInt16 (pack16 v.COEF_AE v.COEF_AF)

def CoeffBMP180.dig_AC4 (v : CoeffBMP180) : Nat := pack16 v.COEF_B0 v.COEF_B1

def CoeffBMP180.dig_AC5 (v : CoeffBMP180) : Nat := pack16 v.COEF_B2 v.COEF_B3

def CoeffBMP180.dig_AC6 (v : CoeffBMP180) : Nat := pack16 v.COEF_B4 v.COEF_B5

def CoeffBMP180.dig_B1 (v : CoeffBMP180) : Int := toInt16 (pack16 v.COEF_B6 v.COEF_B7)

def CoeffBMP180.dig_B2 (v : CoeffBMP180) : Int := toInt16 (pack16 v.COEF_B8 v.COEF_B9)

def CoeffBMP180.dig_MB (v : CoeffBMP180) : Int := toInt16 (pack16 v.COEF_BA v.COEF_BB)

def CoeffBMP180.dig_MC (v : CoeffBMP180) : Int := toInt16 (pack16 v.COEF_BC v.COEF_BD)

def CoeffBMP180.dig_MD (v : CoeffBMP180) : Int := toInt16 (pack16 v.COEF_BE v.COEF_BF)

/-- The pure fixed-point computation of `SensorBMP180.ReadTemperatureMult100C`:

    x1 := ((ut - int32(dig_AC6())) * int32(dig_AC5())) >> 15
    x2 := (int32(dig_MC()) << 11) / (x1 + int32(dig_MD()))
    b5 := x1 + x2
    t := ((b5 + 8) >> 4) * 10

Go faults on a zero divisor; the division is modelled as `none` when
`x1 + dig_MD = 0` (the computation is undefined there). -/
def SensorBMP180.compTemperatureMult100C (c : CoeffBMP180) (ut : Int) : Option Int :=
  let x1 := sar (wrap32 (wrap32 (ut - (c.dig_AC6 : Int)) * (c.dig_AC5 : Int))) 15
  let d := wrap32 (x1 + c.dig_MD)
  if d = 0 then none
  else
    let x2 := wrap32 (Int.tdiv (wrap32 (c.dig_MC * 2 ^ 11)) d)
    let b5 := wrap32 (x1 + x2)
    some (wrap32 (sar (wrap32 (b5 + 8)) 4 * 10))

/-- The `b7 < 0x80000000` branch of `SensorBMP180.ReadPressureMult10Pa`:
`p1 = int32((b7 * 2) / b4)`, uint32 arithmetic (`b7 * 2` wraps mod `2^32`,
division truncates). The final int32 reinterpretation is left to the caller;
this is the unsigned quotient. -/
def SensorBMP180.p1lo (b7 b4 : Nat) : Nat := b7 * 2 % 2 ^ 32 / b4

/-- The `b7 ≥ 0x80000000` branch of `SensorBMP180.ReadPressureMult10Pa`:
`p1 = int32((b7 / b4) * 2)`, uint32 arithmetic. -/
def SensorBMP180.p1hi (b7 b4 : Nat) : Nat := b7 / b4 * 2 % 2 ^ 32

/-- `getS16BE` extract 2-byte integer as signed big-endian:
`int16(buf[0])<<8 + int16(buf[1])` (int16 arithmetic wraps). -/
def getS16BE (b0 b1 : Byte) : Int :=
  wrap16 (wrap16 ((b0.val : Int) * 2 ^ 8) + (b1.val : Int))

/-- `getS16LE` extract 2-byte integer as signed little-endian, by exchanging
the bytes of `getS16BE`: `(w&0xFF)<<8 + w>>8` on the `int16` value `w`
(`&0xFF` keeps the low byte; `>>8` is an *arithmetic* shift). -/
def getS16LE (b0 b1 : Byte) : Int :=
  let w := getS16BE b0 b1
  wrap16 (wrap16 (w % 2 ^ 8 * 2 ^ 8) + sar w 8)

/-- `getU16BE` extract 2-byte integer as unsigned big-endian:
`uint16(buf[0])<<8 + uint16(buf[1])` (uint16 arithmetic wraps mod `2^16`). -/
def getU16BE (b0 b1 : Byte) : Nat :=
  (b0.val * 2 ^ 8 % 2 ^ 16 + b1.val) % 2 ^ 16

/-- `getU16LE` extract 2-byte integer as unsigned little-endian, by exchanging
the bytes of `getU16BE`: `(w&0xFF)<<8 + w>>8` on the `uint16` value `w`
(here `>>8` is a logical shift). -/
def getU16LE (b0 b1 : Byte) : Nat :=
  let w := getU16BE b0 b1
  (w % 2 ^ 8 * 2 ^ 8 % 2 ^ 16 + w / 2 ^ 8) % 2 ^ 16

/-- Go `uint32(x)` conversion of a signed value: the low 32 bits, unsigned. -/
def u32cast (x : Int) : Nat := (x % 2 ^ 32).toNat

/-- Go `int64` division `a / b`: truncating, wrapping on `INT64_MIN / -1`;
faults (`none`) on a zero divisor. -/
def checkedDiv64 (a b : Int) : Option Int :=
  if b = 0 then none else some (wrap64 (Int.tdiv a b))

/-- Unique BME280 calibration coefficients: the raw register bytes of the
three blocks `0x88…0x9F`, `0xA1`, `0xE1…0xE7` (struct `CoeffBME280`). -/
structure CoeffBME280 where
  COEF_88 : Byte
  COEF_89 : Byte
  COEF_8A : Byte
  COEF_8B : Byte
  COEF_8C : Byte
  COEF_8D : Byte
  COEF_8E : Byte
  COEF_8F : Byte
  COEF_90 : Byte
  COEF_91 : Byte
  COEF_92 : Byte
  COEF_93 : Byte
  COEF_94 : Byte
  COEF_95 : Byte
  COEF_96 : Byte
  COEF_97 : Byte
  COEF_98 : Byte
  COEF_99 : Byte
  COEF_9A : Byte
  COEF_9B : Byte
  COEF_9C : Byte
  COEF_9D : Byte
  COEF_9E : Byte
  COEF_9F : Byte
  COEF_A1 : Byte
  COEF_E1 : Byte
  COEF_E2 : Byte
  COEF_E3 : Byte
  COEF_E4 : Byte
  COEF_E5 : Byte
  COEF_E6 : Byte
  COEF_E7 : Byte
deriving DecidableEq

def CoeffBME280.dig_T1 (v : CoeffBME280) : Nat := pack16 v.COEF_89 v.COEF_88

def CoeffBME280.dig_T2 (v : CoeffBME280) : Int := toInt16 (pack16 v.COEF_8B v.COEF_8A)

def CoeffBME280.dig_T3 (v : CoeffBME280) : Int := toInt16 (pack16 v.COEF_8D v.COEF_8C)

def CoeffBME280.dig_P1 (v : CoeffBME280) : Nat := pack16 v.COEF_8F v.COEF_8E

def CoeffBME280.dig_P2 (v : CoeffBME280) : Int := toInt16 (pack16 v.COEF_91 v.COEF_90)

def CoeffBME280.dig_P3 (v : CoeffBME280) : Int := toInt16 (pack16 v.COEF_93 v.COEF_92)

def CoeffBME280.dig_P4 (v : CoeffBME280) : Int := toInt16 (pack16 v.COEF_95 v.COEF_94)

def CoeffBME280.dig_P5 (v : CoeffBME280) : Int := toInt16 (pack16 v.COEF_97 v.COEF_96)

def CoeffBME280.dig_P6 (v : CoeffBME280) : Int := toInt16 (pack16 v.COEF_99 v.COEF_98)

def CoeffBME280.dig_P7 (v : CoeffBME280) : Int := toInt16 (pack16 v.COEF_9B v.COEF_9A)

def CoeffBME280.dig_P8 (v : CoeffBME280) : Int := toInt16 (pack16 v.COEF_9D v.COEF_9C)

def CoeffBME280.dig_P9 (v : CoeffBME280) : Int := toInt16 (pack16 v.COEF_9F v.COEF_9E)

def CoeffBME280.dig_H1 (v : CoeffBME280) : Nat := v.COEF_A1.val

def CoeffBME280.dig_H2 (v : CoeffBME280) : Int := toInt16 (pack16 v.COEF_E2 v.COEF_E1)

def CoeffBME280.dig_H3 (v : CoeffBME280) : Nat := v.COEF_E3.val

/-- `int16(uint16(COEF_E4)<<4 | uint16(COEF_E5&0x0F))`. -/
def CoeffBME280.dig_H4 (v : CoeffBME280) : Int :=
  toInt16 (v.COEF_E4.val * 2 ^ 4 + v.COEF_E5.val % 2 ^ 4)

/-- `int16(uint16(COEF_E6)<<4 | uint16((COEF_E5>>4)&0x0F))`. -/
def CoeffBME280.dig_H5 (v : CoeffBME280) : Int :=
  toInt16 (v.COEF_E6.val * 2 ^ 4 + v.COEF_E5.val / 2 ^ 4 % 2 ^ 4)

def CoeffBME280.dig_H6 (v : CoeffBME280) : Int := toInt8 v.COEF_E7.val

def SensorBME280.tFine (c : CoeffBME280) (ut : Int) : Int :=
  tFineCore c.dig_T1 c.dig_T2 c.dig_T3 ut

/-- The pure fixed-point computation of `SensorBME280.ReadTemperatureMult100C`
(identical to the BMP280 formula, over the BME280 coefficient block). -/
def SensorBME280.compTemperatureMult100C (c : CoeffBME280) (ut : Int) : Int :=
  let tFine := SensorBME280.tFine c ut
  sar (wrap32 (wrap32 (tFine * 5) + 128)) 8

/-- The final clamp of `SensorBME280.ReadHumidityMultQ2210`:

    if v_x1 < 0 { v_x1 = 0 } else if v_x1 > 419430400 { v_x1 = 419430400 }
-/
def clampHumidity (x : Int) : Int :=
  if x < 0 then 0 else if x > 419430400 then 419430400 else x

/-- The pure fixed-point computation of `SensorBME280.ReadHumidityMultQ2210`
from the raw temperature count `ut` and raw humidity count `uh` (int32
arithmetic throughout):

    v_x1 = tFine - 76800
    v_x1 = ((((uh << 14) - (int32(dig_H4()) << 20) - (int32(dig_H5()) * v_x1)) +
        16384) >> 15) * (((((((v_x1*int32(dig_H6()))>>10)*(((v_x1*
        int32(dig_H3()))>>11)+32768))>>10)+2097152)*
        int32(dig_H2()) + 8192) >> 14)
    v_x1 = v_x1 - (((((v_x1 >> 15) * (v_x1 >> 15)) >> 7) * int32(dig_H1())) >> 4)
    (clamp)
    v_x1 = v_x1 >> 12
-/
def SensorBME280.compHumidityMultQ2210 (c : CoeffBME280) (ut uh : Int) : Int :=
  let tFine := SensorBME280.tFine c ut
  let v1 := wrap32 (tFine - 76800)
  let lhs := sar (wrap32 (wrap32 (wrap32 (wrap32 (uh * 2 ^ 14) -
    wrap32 (c.dig_H4 * 2 ^ 20)) - wrap32 (c.dig_H5 * v1)) + 16384)) 15
  let inner := wrap32 (sar (wrap32 (sar (wrap32 (v1 * c.dig_H6)) 10 *
    wrap32 (sar (wrap32 (v1 * (c.dig_H3 : Int))) 11 + 32768))) 10 + 2097152)
  let rhs := sar (wrap32 (wrap32 (inner * c.dig_H2) + 8192)) 14
  let v2 := wrap32 (lhs * rhs)
  let v3 := wrap32 (v2 - sar (wrap32 (sar (wrap32 (sar v2 15 * sar v2 15)) 7 *
    (c.dig_H1 : Int))) 4)
  sar (clampHumidity v3) 12

/-- The `var1` intermediate of the BMP280/BME280 pressure formula after the
`dig_P1` multiplication step (int64 arithmetic), as a function of the numeric
coefficient values and `t_fine`:

    var1 := int64(t_fine) - 128000
    var1 = (var1*var1*int64(dig_P3()))>>8 + (var1*int64(dig_P2()))<<12
    var1 = ((int64(1)<<47 + var1) * int64(dig_P1())) >> 33
-/
def pressVar1Core (p1 : Nat) (p2 p3 : Int) (tFine : Int) : Int :=
  let var1 := wrap64 (tFine - 128000)
  let var1b := wrap64 (sar (wrap64 (wrap64 (var1 * var1) * p3)) 8 +
    wrap64 (wrap64 (var1 * p2) * 2 ^ 12))
  sar (wrap64 (wrap64 (2 ^ 47 + var1b) * (p1 : Int))) 33

/-- The pure fixed-point computation shared verbatim by
`SensorBMP280.ReadPressureMult10Pa` and `SensorBME280.ReadPressureMult10Pa`
(tenths of a Pascal), as a function of the numeric coefficient values,
`t_fine` and the raw pressure count `up`; int64 arithmetic.  The early branch
`if var1 == 0 { return 0, nil }` yields `some 0`; the division by `var1` is
`checkedDiv64`, so an (unreachable) zero divisor would surface as `none`. -/
def pressureMult10PaCore (p1 : Nat) (p2 p3 p4 p5 p6 p7 p8 p9 : Int)
    (tFine up : Int) : Option Nat :=
  let var1 := wrap64 (tFine - 128000)
  let var2 := wrap64 (wrap64 (var1 * var1) * p6)
  let var2b := wrap64 (var2 + wrap64 (wrap64 (var1 * p5) * 2 ^ 17))
  let var2c := wrap64 (var2b + wrap64 (p4 * 2 ^ 35))
  let var1c := pressVar1Core p1 p2 p3 tFine
  if var1c = 0 then
    some 0
  else
    let pp := wrap64 (1048576 - up)
    (checkedDiv64 (wrap64 (wrap64 (wrap64 (pp * 2 ^ 31) - var2c) * 3125)) var1c).map
      (fun ppq =>
        let var1d := sar (wrap64 (wrap64 (p9 * sar ppq 13) * sar ppq 13)) 25
        let var2d := sar (wrap64 (p8 * ppq)) 19
        let pfin := wrap64 (sar (wrap64 (wrap64 (ppq + var1d) + var2d)) 8 +
          wrap64 (p7 * 2 ^ 4))
        u32cast (wrap64 (Int.tdiv (wrap64 (pfin * 10)) 256)))

def SensorBMP280.compPressureMult10Pa (c : CoeffBMP280) (ut up : Int) : Option Nat :=
  pressureMult10PaCore c.dig_P1 c.dig_P2 c.dig_P3 c.dig_P4 c.dig_P5 c.dig_P6
    c.dig_P7 c.dig_P8 c.dig_P9 (SensorBMP280.tFine c ut) up

def SensorBME280.compPressureMult10Pa (c : CoeffBME280) (ut up : Int) : Option Nat :=
  pressureMult10PaCore c.dig_P1 c.dig_P2 c.dig_P3 c.dig_P4 c.dig_P5 c.dig_P6
    c.dig_P7 c.dig_P8 c.dig_P9 (SensorBME280.tFine c ut) up

/-- An all-zero BMP280 coefficient block (an erased device). -/
def zeroCoeffBMP280 : CoeffBMP280 :=
  ⟨0, 0, 0, 0, 0, 0, 0, 0, 0, 0, 0, 0, 0, 0, 0, 0, 0, 0, 0, 0, 0, 0, 0, 0⟩

/-- An all-zero BME280 coefficient block (an erased device). -/
def zeroCoeffBME280 : CoeffBME280 :=
  ⟨0, 0, 0, 0, 0, 0, 0, 0, 0, 0, 0, 0, 0, 0, 0, 0, 0, 0, 0, 0, 0, 0, 0, 0,
   0, 0, 0, 0, 0, 0, 0, 0⟩

/-- A BME280 coefficient block with every byte `0x12` (no coefficient is a
sentinel pattern). -/
def sampleCoeffBME280 : CoeffBME280 :=
  ⟨0x12, 0x12, 0x12, 0x12, 0x12, 0x12, 0x12, 0x12, 0x12, 0x12, 0x12, 0x12,
   0x12, 0x12, 0x12, 0x12, 0x12, 0x12, 0x12, 0x12, 0x12, 0x12, 0x12, 0x12,
   0x12, 0x12, 0x12, 0x12, 0x12, 0x12, 0x12, 0x12⟩

/-- Unique BMP388 calibration coefficients: the raw register bytes
`0x31 … 0x45` (struct `CoeffBMP388` of the source). -/
structure CoeffBMP388 where
  COEF_31 : Byte
  COEF_32 : Byte
  COEF_33 : Byte
  COEF_34 : Byte
  COEF_35 : Byte
  COEF_36 : Byte
  COEF_37 : Byte
  COEF_38 : Byte
  COEF_39 : Byte
  COEF_3A : Byte
  COEF_3B : Byte
  COEF_3C : Byte
  COEF_3D : Byte
  COEF_3E : Byte
  COEF_3F : Byte
  COEF_40 : Byte
  COEF_41 : Byte
  COEF_42 : Byte
  COEF_43 : Byte
  COEF_44 : Byte
  COEF_45 : Byte
deriving DecidableEq

def CoeffBMP388.PAR_T1 (v : CoeffBMP388) : Nat := pack16 v.COEF_32 v.COEF_31

def CoeffBMP388.PAR_T2 (v : CoeffBMP388) : Nat := pack16 v.COEF_34 v.COEF_33

def CoeffBMP388.PAR_T3 (v : CoeffBMP388) : Int := toInt8 v.COEF_35.val

def CoeffBMP388.PAR_P1 (v : CoeffBMP388) : Int := toInt16 (pack16 v.COEF_37 v.COEF_36)

def CoeffBMP388.PAR_P2 (v : CoeffBMP388) : Int := toInt16 (pack16 v.COEF_39 v.COEF_38)

def CoeffBMP388.PAR_P3 (v : CoeffBMP388) : Int := toInt8 v.COEF_3A.val

def CoeffBMP388.PAR_P4 (v : CoeffBMP388) : Int := toInt8 v.COEF_3B.val

def CoeffBMP388.PAR_P5 (v : CoeffBMP388) : Nat := pack16 v.COEF_3D v.COEF_3C

def CoeffBMP388.PAR_P6 (v : CoeffBMP388) : Nat := pack16 v.COEF_3F v.COEF_3E

def CoeffBMP388.PAR_P7 (v : CoeffBMP388) : Int := toInt8 v.COEF_40.val

def CoeffBMP388.PAR_P8 (v : CoeffBMP388) : Int := toInt8 v.COEF_41.val

def CoeffBMP388.PAR_P9 (v : CoeffBMP388) : Int := toInt16 (pack16 v.COEF_43 v.COEF_42)

def CoeffBMP388.PAR_P10 (v : CoeffBMP388) : Int := toInt8 v.COEF_44.val

def CoeffBMP388.PAR_P11 (v : CoeffBMP388) : Int := toInt8 v.COEF_45.val

/-- `checkCoefficient` verify that compensation parameter looks valid:

    if coef == 0 || coef == 0xFFFF { return fmt.Errorf("Coefficient %s is invalid: 0x%X", ...) }

The error is modelled by the coefficient's name (the `%s` of the message). -/
def checkCoefficient (coef : Nat) (name : String) : Except Err Unit :=
  if coef = 0 ∨ coef = 0xFFFF then Except.error name else Except.ok ()

/-- Run a sequence of `checkCoefficient` calls with the Go early-return on
the first error, as every `IsValidCoefficients` implementation does. -/
def runChecks : List (Nat × String) → Except Err Unit
  | [] => Except.ok ()
  | (coef, name) :: rest =>
    match checkCoefficient coef name with
    | Except.error e => Except.error e
    | Except.ok _ => runChecks rest

/-- The coefficients checked by `SensorBMP180.IsValidCoefficients`, in source
order, each with the `uint16` cast the source applies. -/
def checkedCoefficientsBMP180 (c : CoeffBMP180) : List (Nat × String) :=
  [(u16cast c.dig_AC1, "AC1"), (u16cast c.dig_AC2, "AC2"),
   (u16cast c.dig_AC3, "AC3"), (c.dig_AC4, "AC4"), (c.dig_AC5, "AC5"),
   (c.dig_AC6, "AC6"), (u16cast c.dig_B1, "B1"), (u16cast c.dig_B2, "B2"),
   (u16cast c.dig_MB, "MB"), (u16cast c.dig_MC, "MC"), (u16cast c.dig_MD, "MD")]

def SensorBMP180.IsValidCoefficients (c : CoeffBMP180) : Except Err Unit :=
  runChecks (checkedCoefficientsBMP180 c)

/-- The coefficients checked by `SensorBMP280.IsValidCoefficients`, in source
order. -/
def checkedCoefficientsBMP280 (c : CoeffBMP280) : List (Nat × String) :=
  [(c.dig_T1, "dig_T1"), (u16cast c.dig_T2, "dig_T2"),
   (u16cast c.dig_T3, "dig_T3"), (c.dig_P1, "dig_P1"),
   (u16cast c.dig_P2, "dig_P2"), (u16cast c.dig_P3, "dig_P3"),
   (u16cast c.dig_P4, "dig_P4"), (u16cast c.dig_P5, "dig_P5"),
   (u16cast c.dig_P6, "dig_P6"), (u16cast c.dig_P7, "dig_P7"),
   (u16cast c.dig_P8, "dig_P8"), (u16cast c.dig_P9, "dig_P9")]

def SensorBMP280.IsValidCoefficients (c : CoeffBMP280) : Except Err Unit :=
  runChecks (checkedCoefficientsBMP280 c)

/-- The coefficients checked by `SensorBME280.IsValidCoefficients`, in source
order.  The humidity coefficients `dig_H1 … dig_H6` are *not* checked by the
source. -/
def checkedCoefficientsBME280 (c : CoeffBME280) : List (Nat × String) :=
  [(c.dig_T1, "dig_T1"), (u16cast c.dig_T2, "dig_T2"),
   (u16cast c.dig_T3, "dig_T3"), (c.dig_P1, "dig_P1"),
   (u16cast c.dig_P2, "dig_P2"), (u16cast c.dig_P3, "dig_P3"),
   (u16cast c.dig_P4, "dig_P4"), (u16cast c.dig_P5, "dig_P5"),
   (u16cast c.dig_P6, "dig_P6"), (u16cast c.dig_P7, "dig_P7"),
   (u16cast c.dig_P8, "dig_P8"), (u16cast c.dig_P9, "dig_P9")]

def SensorBME280.IsValidCoefficients (c : CoeffBME280) : Except Err Unit :=
  runChecks (checkedCoefficientsBME280 c)

/-- The coefficients checked by `SensorBMP388.IsValidCoefficients`, in source
order.  The source's `PAR_P4` check is commented out, so `PAR_P4` is *not*
checked. -/
def checkedCoefficientsBMP388 (c : CoeffBMP388) : List (Nat × String) :=
  [(c.PAR_T1, "PAR_T1"), (c.PAR_T2, "PAR_T2"), (u16cast c.PAR_T3, "PAR_T3"),
   (u16cast c.PAR_P1, "PAR_P1"), (u16cast c.PAR_P2, "PAR_P2"),
   (u16cast c.PAR_P3, "PAR_P3"), (c.PAR_P5, "PAR_P5"), (c.PAR_P6, "PAR_P6"),
   (u16cast c.PAR_P7, "PAR_P7"), (u16cast c.PAR_P8, "PAR_P8"),
   (u16cast c.PAR_P9, "PAR_P9"), (u16cast c.PAR_P10, "PAR_P10"),
   (u16cast c.PAR_P11, "PAR_P11")]

def SensorBMP388.IsValidCoefficients (c : CoeffBMP388) : Except Err Unit :=
  runChecks (checkedCoefficientsBMP388 c)

/-- A BME280 coefficient block identical to `sampleCoeffBME280` except that
the raw byte of `dig_H1` (register `0xA1`) is forced to the sentinel 0. -/
def badH1CoeffBME280 : CoeffBME280 :=
  { sampleCoeffBME280 with COEF_A1 := 0 }

/-- A BMP180 coefficient block with every byte `0x12`. -/
def sampleCoeffBMP180 : CoeffBMP180 :=
  ⟨0x12, 0x12, 0x12, 0x12, 0x12, 0x12, 0x12, 0x12, 0x12, 0x12, 0x12,
   0x12, 0x12, 0x12, 0x12, 0x12, 0x12, 0x12, 0x12, 0x12, 0x12, 0x12⟩

/-- A BMP388 coefficient block with every byte `0x12`. -/
def sampleCoeffBMP388 : CoeffBMP388 :=
  ⟨0x12, 0x12, 0x12, 0x12, 0x12, 0x12, 0x12, 0x12, 0x12, 0x12, 0x12,
   0x12, 0x12, 0x12, 0x12, 0x12, 0x12, 0x12, 0x12, 0x12, 0x12⟩

/-- Accuracy mode for calculation of atmospheric pressure and temperature. -/
inductive AccuracyMode where
  | ACCURACY_ULTRA_LOW
  | ACCURACY_LOW
  | ACCURACY_STANDARD
  | ACCURACY_HIGH
  | ACCURACY_ULTRA_HIGH
  | ACCURACY_HIGHEST
deriving DecidableEq

/-- The abstract i2c bus consumed by the driver.  Reads are oracles: the
value (or transport error) the device would answer.  `readBlock start count`
models the raw `ReadBytes` that follows a `WriteBytes([]byte{start})`
register-pointer write, returning the block as a byte-indexed function (a
successful bus read always fills the requested buffer). -/
structure Bus where
  readRegU8 : Nat → Except Err Byte
  writeRegU8 : Nat → Nat → Except Err Unit
  readRegBytes : Nat → Nat → Except Err (Nat → Byte)
  writeBytes : List Nat → Except Err Unit
  readBlock : Nat → Nat → Except Err (Nat → Byte)

/-- `waitForCompletion` — wait until the sensor completes measurement,
polling `sensor.IsBusy(i2c)` in a `for i := 0; i < 10; i++` loop:
a bus error returns `(false, err)` at once; a not-busy answer returns
`(false, nil)` at once; ten busy answers return `(true, nil)`.
The device state may change between polls, so the `isBusy` oracle is indexed
by the call number; the second component counts the `IsBusy` calls made. -/
def waitForCompletionAux (isBusy : Nat → Except Err Bool) :
    Nat → Nat → Except Err Bool × Nat
  | 0, calls => (Except.ok true, calls)
  | n + 1, calls =>
    match isBusy calls with
    | Except.error e => (Except.error e, calls + 1)
    | Except.ok true => waitForCompletionAux isBusy n (calls + 1)
    | Except.ok false => (Except.ok false, calls + 1)

def waitForCompletion (isBusy : Nat → Except Err Bool) : Except Err Bool × Nat :=
  waitForCompletionAux isBusy 10 0

/-- `SensorBMP280.IsBusy`: read status register `0xF3`, mask bit `0x8`,
busy iff nonzero. -/
def SensorBMP280.IsBusy (bus : Bus) : Except Err Bool :=
  match bus.readRegU8 0xF3 with
  | Except.error e => Except.error e
  | Except.ok b => Except.ok (b.val &&& 0x8 != 0)

/-- `SensorBMP280.getOversamplingRation` (the `default` arm assigns the
lowest resolution 1). -/
def SensorBMP280.getOversamplingRation : AccuracyMode → Nat
  | AccuracyMode.ACCURACY_ULTRA_LOW => 1
  | AccuracyMode.ACCURACY_LOW => 2
  | AccuracyMode.ACCURACY_STANDARD => 3
  | AccuracyMode.ACCURACY_HIGH => 4
  | AccuracyMode.ACCURACY_ULTRA_HIGH => 5
  | _ => 1

/-- Assemble a 20-bit raw sample from the 3 output-register bytes:
`int32(buf[0])<<12 + int32(buf[1])<<4 + int32(buf[2]&0xF0)>>4`. -/
def rawSample20 (buf : Nat → Byte) : Int :=
  wrap32 (wrap32 (wrap32 ((buf 0).val * 2 ^ 12) + wrap32 ((buf 1).val * 2 ^ 4)) +
    sar ((buf 2).val &&& 0xF0 : Nat) 4)

/-- `SensorBMP280.readUncompTemprature`: write forced mode + oversampling to
control register `0xF4` (`power|(osrt<<5)` with `power = 1`; the bit ranges
are disjoint, so the Go bit-or equals `1 + osrt * 2^5`), poll
`waitForCompletion` — whose timeout flag is discarded
(`_, err = waitForCompletion(v, i2c)`) — then read the 3 temperature output
bytes at `0xFA` regardless of a timeout. -/
def SensorBMP280.readUncompTemprature (bus : Bus) (accuracy : AccuracyMode) :
    Except Err Int :=
  match bus.writeRegU8 0xF4 (1 + SensorBMP280.getOversamplingRation accuracy * 2 ^ 5) with
  | Except.error e => Except.error e
  | Except.ok _ =>
    match (waitForCompletion fun _ => SensorBMP280.IsBusy bus).1 with
    | Except.error e => Except.error e
    | Except.ok _ =>
      match bus.readRegBytes 0xFA 3 with
      | Except.error e => Except.error e
      | Except.ok buf => Except.ok (rawSample20 buf)

/-- The sensor kinds dispatched by the facade. -/
inductive SensorType where
  | BMP180
  | BMP280
  | BME280
  | BMP388
deriving DecidableEq

/-- `SensorBMP180.RecognizeSignature`: only `0x55` is a BMP180. -/
def SensorBMP180.RecognizeSignature (signature : Byte) : Except Err String :=
  match signature.val with
  | 0x55 => Except.ok "BMP180"
  | _ => Except.error "signature doesn't belong to BMP180 series"

/-- `SensorBMP280.RecognizeSignature`: `0x58` is a production BMP280,
`0x56`/`0x57` are engineering samples. -/
def SensorBMP280.RecognizeSignature (signature : Byte) : Except Err String :=
  match signature.val with
  | 0x58 => Except.ok "BMP280"
  | 0x56 | 0x57 => Except.ok "BMP280 (sample)"
  | _ => Except.error "signature doesn't belong to BMP280 series"

/-- `SensorBME280.RecognizeSignature`: only `0x60` is a BME280. -/
def SensorBME280.RecognizeSignature (signature : Byte) : Except Err String :=
  match signature.val with
  | 0x60 => Except.ok "BME280"
  | _ => Except.error "signature doesn't belong to BME280 series"

/-- `SensorBMP388.RecognizeSignature`: only `0x50` is a BMP388. -/
def SensorBMP388.RecognizeSignature (signature : Byte) : Except Err String :=
  match signature.val with
  | 0x50 => Except.ok "BMP388"
  | _ => Except.error "signature doesn't belong to BMP388 series"

/-- Per-variant `ReadSensorID`: a single identity-register read
(`0xD0` for BMP180/BMP280/BME280, `0x00` for BMP388). -/
def SensorBMP180.ReadSensorID (bus : Bus) : Except Err Byte := bus.readRegU8 0xD0

def SensorBMP280.ReadSensorID (bus : Bus) : Except Err Byte := bus.readRegU8 0xD0

def SensorBME280.ReadSensorID (bus : Bus) : Except Err Byte := bus.readRegU8 0xD0

def SensorBMP388.ReadSensorID (bus : Bus) : Except Err Byte := bus.readRegU8 0x00

/-- `SensorBMP180.ReadCoefficients`: point the register pointer at `0xAA`
(`WriteBytes`), read the 22-byte block, decode into `CoeffBMP180`. -/
def SensorBMP180.ReadCoefficients (bus : Bus) : Except Err CoeffBMP180 :=
  match bus.writeBytes [0xAA] with
  | Except.error e => Except.error e
  | Except.ok _ =>
    match bus.readBlock 0xAA 22 with
    | Except.error e => Except.error e
    | Except.ok f =>
      Except.ok ⟨f 0, f 1, f 2, f 3, f 4, f 5, f 6, f 7, f 8, f 9, f 10,
        f 11, f 12, f 13, f 14, f 15, f 16, f 17, f 18, f 19, f 20, f 21⟩

/-- `SensorBMP280.ReadCoefficients`: 24-byte block at `0x88`. -/
def SensorBMP280.ReadCoefficients (bus : Bus) : Except Err CoeffBMP280 :=
  match bus.writeBytes [0x88] with
  | Except.error e => Except.error e
  | Except.ok _ =>
    match bus.readBlock 0x88 24 with
    | Except.error e => Except.error e
    | Except.ok f =>
      Except.ok ⟨f 0, f 1, f 2, f 3, f 4, f 5, f 6, f 7, f 8, f 9, f 10,
        f 11, f 12, f 13, f 14, f 15, f 16, f 17, f 18, f 19, f 20, f 21,
        f 22, f 23⟩

/-- `SensorBME280.ReadCoefficients`: three blocks — 24 bytes at `0x88`,
1 byte at `0xA1`, 7 bytes at `0xE1` — combined into `CoeffBME280`. -/
def SensorBME280.ReadCoefficients (bus : Bus) : Except Err CoeffBME280 :=
  match bus.writeBytes [0x88] with
  | Except.error e => Except.error e
  | Except.ok _ =>
    match bus.readBlock 0x88 24 with
    | Except.error e => Except.error e
    | Except.ok f1 =>
      match bus.writeBytes [0xA1] with
      | Except.error e => Except.error e
      | Except.ok _ =>
        match bus.readBlock 0xA1 1 with
        | Except.error e => Except.error e
        | Except.ok f2 =>
          match bus.writeBytes [0xE1] with
          | Except.error e => Except.error e
          | Except.ok _ =>
            match bus.readBlock 0xE1 7 with
            | Except.error e => Except.error e
            | Except.ok f3 =>
              Except.ok ⟨f1 0, f1 1, f1 2, f1 3, f1 4, f1 5, f1 6, f1 7,
                f1 8, f1 9, f1 10, f1 11, f1 12, f1 13, f1 14, f1 15, f1 16,
                f1 17, f1 18, f1 19, f1 20, f1 21, f1 22, f1 23, f2 0,
                f3 0, f3 1, f3 2, f3 3, f3 4, f3 5, f3 6⟩

/-- `SensorBMP388.ReadCoefficients`: 21-byte block at `0x31`. -/
def SensorBMP388.ReadCoefficients (bus : Bus) : Except Err CoeffBMP388 :=
  match bus.writeBytes [0x31] with
  | Except.error e => Except.error e
  | Except.ok _ =>
    match bus.readBlock 0x31 21 with
    | Except.error e => Except.error e
    | Except.ok f =>
      Except.ok ⟨f 0, f 1, f 2, f 3, f 4, f 5, f 6, f 7, f 8, f 9, f 10,
        f 11, f 12, f 13, f 14, f 15, f 16, f 17, f 18, f 19, f 20⟩

/-- The decoded calibration data held by a constructed handle. -/
inductive CoeffData where
  | bmp180 (c : CoeffBMP180)
  | bmp280 (c : CoeffBMP280)
  | bme280 (c : CoeffBME280)
  | bmp388 (c : CoeffBMP388)

/-- The device handle built by `NewBMP`: the selected variant plus its
decoded calibration block (the Go handle stores the variant implementation,
whose `Coeff` the calibration read fills in). -/
structure BMP where
  sensorType : SensorType
  coeff : CoeffData

def readSensorIDFor : SensorType → Bus → Except Err Byte
  | SensorType.BMP180, bus => SensorBMP180.ReadSensorID bus
  | SensorType.BMP280, bus => SensorBMP280.ReadSensorID bus
  | SensorType.BME280, bus => SensorBME280.ReadSensorID bus
  | SensorType.BMP388, bus => SensorBMP388.ReadSensorID bus

def recognizeSignatureFor : SensorType → Byte → Except Err String
  | SensorType.BMP180, s => SensorBMP180.RecognizeSignature s
  | SensorType.BMP280, s => SensorBMP280.RecognizeSignature s
  | SensorType.BME280, s => SensorBME280.RecognizeSignature s
  | SensorType.BMP388, s => SensorBMP388.RecognizeSignature s

def readCoefficientsFor : SensorType → Bus → Except Err CoeffData
  | SensorType.BMP180, bus => (SensorBMP180.ReadCoefficients bus).map CoeffData.bmp180
  | SensorType.BMP280, bus => (SensorBMP280.ReadCoefficients bus).map CoeffData.bmp280
  | SensorType.BME280, bus => (SensorBME280.ReadCoefficients bus).map CoeffData.bme280
  | SensorType.BMP388, bus => (SensorBMP388.ReadCoefficients bus).map CoeffData.bmp388

/-- `NewBMP` creates a new sensor object: dispatch on the variant, read the
identity register, recognize the signature, read the calibration block; any
failing step returns `(nil, err)` — modelled `Except.error e` — and only
full success returns a handle. -/
def NewBMP (sensorType : SensorType) (bus : Bus) : Except Err BMP :=
  match readSensorIDFor sensorType bus with
  | Except.error e => Except.error e
  | Except.ok id =>
    match recognizeSignatureFor sensorType id with
    | Except.error e => Except.error e
    | Except.ok _ =>
      match readCoefficientsFor sensorType bus with
      | Except.error e => Except.error e
      | Except.ok coeff => Except.ok ⟨sensorType, coeff⟩

/-- The signature bytes each variant's `RecognizeSignature` accepts. -/
def acceptedSignatures : SensorType → List Nat
  | SensorType.BMP180 => [0x55]
  | SensorType.BMP280 => [0x58, 0x56, 0x57]
  | SensorType.BME280 => [0x60]
  | SensorType.BMP388 => [0x50]

/-- `true` exactly on `Except.ok`. -/
def exceptIsOk {α : Type} : Except Err α → Bool
  | Except.ok _ => true
  | Except.error _ => false

/-- A fully functional bus stub: every write succeeds, every register reads
`0x58` (the BMP280 production signature), every block reads bytes `0x12`. -/
def goodBus : Bus where
  readRegU8 := fun _ => Except.ok 0x58
  writeRegU8 := fun _ _ => Except.ok ()
  readRegBytes := fun _ _ => Except.ok (fun _ => 0x12)
  writeBytes := fun _ => Except.ok ()
  readBlock := fun _ _ => Except.ok (fun _ => 0x12)

/-- A bus stub whose status register always reports "busy" (bit 3 set) and
whose data reads succeed with bytes `0x12`. -/
def busyBus : Bus where
  readRegU8 := fun _ => Except.ok 0x08
  writeRegU8 := fun _ _ => Except.ok ()
  readRegBytes := fun _ _ => Except.ok (fun _ => 0x12)
  writeBytes := fun _ => Except.ok ()
  readBlock := fun _ _ => Except.ok (fun _ => 0x12)

/-! ## Theorems -/

/-- `wrap32` always lands in the signed 32-bit range. -/
theorem wrap32_bounds (x : Int) : -2 ^ 31 ≤ wrap32 x ∧ wrap32 x < 2 ^ 31 := by
  unfold wrap32
  have h1 : 0 ≤ (x + 2 ^ 31) % 2 ^ 32 :=
    Int.emod_nonneg _ (by norm_num)
  have h2 : (x + 2 ^ 31) % 2 ^ 32 < 2 ^ 32 :=
    Int.emod_lt_of_pos _ (by norm_num)
  omega

/-- `wrap32` is the identity on the signed 32-bit range. -/
theorem wrap32_eq_self {x : Int} (h1 : -2 ^ 31 ≤ x) (h2 : x < 2 ^ 31) :
    wrap32 x = x := by
  unfold wrap32
  rw [Int.emod_eq_of_lt (by omega) (by omega)]
  omega

/-- Arithmetic right shift agrees with Euclidean division by `2 ^ n`. -/
theorem sar_eq_ediv (x : Int) (n : Nat) : sar x n = x / 2 ^ n :=
  Int.fdiv_eq_ediv x (by positivity)

/-- A 16-bit pattern reinterpreted as `int16` lies in the signed range. -/
theorem toInt16_bounds {p : Nat} (h : p < 2 ^ 16) :
    -2 ^ 15 ≤ toInt16 p ∧ toInt16 p < 2 ^ 15 := by
  unfold toInt16
  split <;> omega

/-- Go's truncating division never grows the magnitude of the dividend. -/
theorem tdiv_bounds (a b : Int) :
    -(a.natAbs : Int) ≤ Int.tdiv a b ∧ Int.tdiv a b ≤ (a.natAbs : Int) := by
  have h : (Int.tdiv a b).natAbs ≤ a.natAbs := by
    rw [Int.natAbs_tdiv]; exact Nat.div_le_self _ _
  omega

/-- `pack16` of two bytes is a 16-bit pattern. -/
theorem pack16_lt (hi lo : Byte) : pack16 hi lo < 2 ^ 16 := by
  have h1 := hi.isLt
  have h2 := lo.isLt
  unfold pack16
  omega

/-- C1: with the BMP280 datasheet worked-example calibration coefficients
(`dig_T1 = 27504`, `dig_T2 = 26435`, `dig_T3 = -1000`) and raw uncompensated
temperature count `519888`, the fixed-point computation of
`SensorBMP280.ReadTemperatureMult100C` returns exactly `2508`
(hundredths of a degree Celsius). -/
theorem bmp280_temperature_golden_vector :
    goldenCoeffBMP280.dig_T1 = 27504 ∧
    goldenCoeffBMP280.dig_T2 = 26435 ∧
    goldenCoeffBMP280.dig_T3 = -1000 ∧
    SensorBMP280.compTemperatureMult100C goldenCoeffBMP280 519888 = 2508 := by
  decide

/-- C3 counterexample: at `b7 = 3`, `b4 = 2` — an input with `b4 ≠ 0` and no
32-bit overflow on either path — the two branch expressions of the BMP180
pressure formula differ: `(b7*2)/b4 = 3` but `(b7/b4)*2 = 2`.  Truncating
division does not commute with doubling, so the branches are not
mathematically equal on all valid inputs. -/
theorem bmp180_pressure_branches_counterexample :
    SensorBMP180.p1lo 3 2 = 3 ∧ SensorBMP180.p1hi 3 2 = 2 ∧
    SensorBMP180.p1lo 3 2 ≠ SensorBMP180.p1hi 3 2 := by
  decide

/-- C3 (amended): for every `(b7, b4)` with `b4` nonzero and no 32-bit
overflow on either path (`b7 < 2^31`, so `b7*2` fits in 32 bits), the two
branch expressions of the BMP180 pressure formula agree to within one unit:
`(b7/b4)*2 ≤ (b7*2)/b4 ≤ (b7/b4)*2 + 1`. -/
theorem bmp180_pressure_branches_agree_within_one (b7 b4 : Nat)
    (hb4 : b4 ≠ 0) (hov : b7 < 2 ^ 31) :
    SensorBMP180.p1hi b7 b4 ≤ SensorBMP180.p1lo b7 b4 ∧
    SensorBMP180.p1lo b7 b4 ≤ SensorBMP180.p1hi b7 b4 + 1 := by
  have h0 : 0 < b4 := Nat.pos_of_ne_zero hb4
  have hq := Nat.div_add_mod b7 b4
  have hr : b7 % b4 < b4 := Nat.mod_lt _ h0
  have hds := Nat.div_le_self b7 b4
  have h2 : b7 * 2 % 2 ^ 32 = b7 * 2 := Nat.mod_eq_of_lt (by omega)
  have h3 : b7 / b4 * 2 % 2 ^ 32 = b7 / b4 * 2 := Nat.mod_eq_of_lt (by omega)
  have h4a : b4 * (b7 / b4 * 2) = b4 * (b7 / b4) * 2 := by ring
  have h4 : b7 * 2 = b4 * (b7 / b4 * 2) + b7 % b4 * 2 := by omega
  have h5 : b7 * 2 / b4 = b7 / b4 * 2 + b7 % b4 * 2 / b4 := by
    rw [h4, Nat.mul_add_div h0]
  have h6 : b7 % b4 * 2 / b4 < 2 := by
    rw [Nat.div_lt_iff_lt_mul h0]; omega
  unfold SensorBMP180.p1lo SensorBMP180.p1hi
  rw [h2, h3, h5]
  refine ⟨Nat.le_add_right _ _, ?_⟩
  exact Nat.add_le_add_left (Nat.lt_succ_iff.mp h6) _

/-- Witness for the amended C3 theorem at `b7 = 5`, `b4 = 3`. -/
theorem bmp180_pressure_branches_agree_within_one_witness :
    SensorBMP180.p1hi 5 3 ≤ SensorBMP180.p1lo 5 3 ∧
    SensorBMP180.p1lo 5 3 ≤ SensorBMP180.p1hi 5 3 + 1 :=
  bmp180_pressure_branches_agree_within_one 5 3 (by decide) (by decide)

/-- C10: whenever the BMP180 temperature computation is defined (the divisor
`x1 + dig_MD` is nonzero) on a raw 16-bit uncompensated temperature reading,
the result of `SensorBMP180.ReadTemperatureMult100C` is divisible by 10: the
final step multiplies the tenths-of-a-degree value `(b5+8)>>4` by 10, so the
hundredths output has 0.1 °C resolution. -/
theorem bmp180_temperature_mult100_divisible_by_10
    (c : CoeffBMP180) (ut : Int) (hut0 : 0 ≤ ut) (hut1 : ut < 2 ^ 16)
    (t : Int) (h : SensorBMP180.compTemperatureMult100C c ut = some t) :
    (10 : Int) ∣ t := by
  unfold SensorBMP180.compTemperatureMult100C at h
  set x1e := sar (wrap32 (wrap32 (ut - (c.dig_AC6 : Int)) * (c.dig_AC5 : Int))) 15 with hx1e
  set d := wrap32 (x1e + c.dig_MD) with hd
  by_cases hd0 : d = 0
  · simp at h
    rw [hd] at hd0
    exact absurd hd0 h.1
  · simp only [if_neg hd0] at h
    -- bounds on the intermediates: none of the remaining int32 additions,
    -- shifts or the final multiplication by 10 can overflow
    have hx1b : -2 ^ 16 ≤ x1e ∧ x1e < 2 ^ 16 := by
      have hw := wrap32_bounds (wrap32 (ut - (c.dig_AC6 : Int)) * (c.dig_AC5 : Int))
      rw [hx1e, sar_eq_ediv]
      omega
    have hmcb := toInt16_bounds (pack16_lt c.COEF_BC c.COEF_BD)
    have hmc2048 : wrap32 (c.dig_MC * 2 ^ 11) = c.dig_MC * 2 ^ 11 := by
      apply wrap32_eq_self <;> [skip; skip] <;>
        · have := hmcb
          unfold CoeffBMP180.dig_MC at *
          nlinarith [this.1, this.2]
    have htd := tdiv_bounds (wrap32 (c.dig_MC * 2 ^ 11)) d
    have htdabs : ((wrap32 (c.dig_MC * 2 ^ 11)).natAbs : Int) ≤ 2 ^ 26 := by
      rw [hmc2048]
      unfold CoeffBMP180.dig_MC at *
      omega
    set x2r := Int.tdiv (wrap32 (c.dig_MC * 2 ^ 11)) d with hx2r
    have hx2b : -2 ^ 26 ≤ x2r ∧ x2r ≤ 2 ^ 26 := by omega
    have hx2w : wrap32 x2r = x2r := wrap32_eq_self (by omega) (by omega)
    rw [hx2w] at h
    have hb5w : wrap32 (x1e + x2r) = x1e + x2r :=
      wrap32_eq_self (by omega) (by omega)
    rw [hb5w] at h
    have hb58w : wrap32 (x1e + x2r + 8) = x1e + x2r + 8 :=
      wrap32_eq_self (by omega) (by omega)
    rw [hb58w] at h
    set y := sar (x1e + x2r + 8) 4 with hy
    have hyb : -2 ^ 27 ≤ y ∧ y ≤ 2 ^ 27 := by
      rw [hy, sar_eq_ediv]
      omega
    have hyw : wrap32 (y * 10) = y * 10 :=
      wrap32_eq_self (by omega) (by omega)
    rw [hyw] at h
    have hth : y * 10 = t := by
      simpa using h
    exact ⟨y, by omega⟩

/-- Witness for C10: a concrete coefficient block (all bytes `0x12`) and
reading `ut = 30000` on which the computation is defined; the result is
divisible by 10. -/
theorem bmp180_temperature_mult100_divisible_by_10_witness :
    (10 : Int) ∣ 2960 := by
  apply bmp180_temperature_mult100_divisible_by_10
    ⟨0x12, 0x12, 0x12, 0x12, 0x12, 0x12, 0x12, 0x12, 0x12, 0x12, 0x12,
     0x12, 0x12, 0x12, 0x12, 0x12, 0x12, 0x12, 0x12, 0x12, 0x12, 0x12⟩
    30000 (by decide) (by decide)
  decide

/-- C4: evaluation of the decoding helpers.  `getU16BE`, `getU16LE` and
`getS16BE` return exactly the claimed values for every 2-byte input, but
`getS16LE` does not: at `buf = [0x80, 0x00]` it returns `-128` instead of the
signed little-endian value `buf[1]*256 + buf[0] = 128`.  The byte exchange
`(w&0xFF)<<8 + w>>8` uses an *arithmetic* right shift on the signed `int16`
value `w`, so when `buf[0] ≥ 0x80` (`w` negative) the sign extension of the
high byte leaks into the swapped result, contradicting the function's own
documentation ("extract 2-byte integer as signed little-endian"). -/
theorem getS16LE_sign_extension_bug :
    (∀ b0 b1 : Byte,
      getU16BE b0 b1 = b0.val * 256 + b1.val ∧
      getU16LE b0 b1 = b1.val * 256 + b0.val ∧
      getS16BE b0 b1 = toInt16 (b0.val * 256 + b1.val)) ∧
    getS16LE 128 0 = -128 ∧
    toInt16 (0 * 256 + 128) = 128 := by
  refine ⟨fun b0 b1 => ?_, by decide, by decide⟩
  have h0 := b0.isLt
  have h1 := b1.isLt
  simp only [getU16BE, getU16LE, getS16BE, toInt16, wrap16]
  refine ⟨by omega, ?_, ?_⟩
  · have e1 : b0.val * 2 ^ 8 % 2 ^ 16 = b0.val * 256 := by omega
    rw [e1]
    have e2 : (b0.val * 256 + b1.val) % 2 ^ 16 = b0.val * 256 + b1.val := by omega
    rw [e2]
    have e3 : (b0.val * 256 + b1.val) % 2 ^ 8 = b1.val := by omega
    rw [e3]
    have e4 : (b0.val * 256 + b1.val) / 2 ^ 8 = b0.val := by omega
    rw [e4]
    omega
  · split_ifs <;> omega

/-- The humidity clamp keeps its argument in `[0, 419430400]`. -/
theorem clampHumidity_mem (x : Int) :
    0 ≤ clampHumidity x ∧ clampHumidity x ≤ 419430400 := by
  unfold clampHumidity
  split_ifs <;> omega

/-- After the clamp, the final `>> 12` lands in `[0, 102400]`. -/
theorem sar12_clampHumidity_bounds (x : Int) :
    0 ≤ sar (clampHumidity x) 12 ∧ sar (clampHumidity x) 12 ≤ 102400 := by
  obtain ⟨h1, h2⟩ := clampHumidity_mem x
  rw [sar_eq_ediv]
  omega

/-- C8: in the BME280 humidity compensation the final intermediate `v_x1` is
clamped into `[0, 419430400]` — arguments below 0 floor at 0, arguments above
419430400 saturate there, arguments inside pass through — before the final
right shift by 12; consequently `SensorBME280.ReadHumidityMultQ2210` always
returns a value in `[0, 102400]`, i.e. at most 100 %RH after division by
1024. -/
theorem bme280_humidity_clamp_and_range :
    (∀ x : Int,
      (x < 0 → clampHumidity x = 0) ∧
      (419430400 < x → clampHumidity x = 419430400) ∧
      (0 ≤ x → x ≤ 419430400 → clampHumidity x = x)) ∧
    ∀ (c : CoeffBME280) (ut uh : Int),
      0 ≤ SensorBME280.compHumidityMultQ2210 c ut uh ∧
      SensorBME280.compHumidityMultQ2210 c ut uh ≤ 102400 := by
  constructor
  · intro x
    unfold clampHumidity
    refine ⟨fun h => ?_, fun h => ?_, fun h1 h2 => ?_⟩ <;> split_ifs <;> omega
  · intro c ut uh
    exact sar12_clampHumidity_bounds _

/-- Witness for C8 at concrete inputs: the clamp floors `-5` to `0`,
saturates `419430401` to the cap, passes `12345` through, and a concrete
humidity computation lands in range. -/
theorem bme280_humidity_clamp_and_range_witness :
    clampHumidity (-5) = 0 ∧ clampHumidity 419430401 = 419430400 ∧
    clampHumidity 12345 = 12345 ∧
    (0 ≤ SensorBME280.compHumidityMultQ2210 sampleCoeffBME280 30000 30000 ∧
      SensorBME280.compHumidityMultQ2210 sampleCoeffBME280 30000 30000 ≤ 102400) := by
  obtain ⟨h1, h2⟩ := bme280_humidity_clamp_and_range
  exact ⟨(h1 (-5)).1 (by decide), (h1 419430401).2.1 (by decide),
    (h1 12345).2.2 (by decide) (by decide), h2 sampleCoeffBME280 30000 30000⟩

/-- The shared pressure pipeline always produces a value (`isSome`): the
`var1 == 0` guard returns pressure 0 before the division, so `checkedDiv64`
never sees a zero divisor; and when `var1 = 0` the result is exactly
`some 0`. -/
theorem pressureMult10PaCore_total (p1 : Nat) (p2 p3 p4 p5 p6 p7 p8 p9 : Int)
    (tFine up : Int) :
    (pressureMult10PaCore p1 p2 p3 p4 p5 p6 p7 p8 p9 tFine up).isSome = true ∧
    (pressVar1Core p1 p2 p3 tFine = 0 →
      pressureMult10PaCore p1 p2 p3 p4 p5 p6 p7 p8 p9 tFine up = some 0) := by
  simp only [pressureMult10PaCore]
  by_cases h : pressVar1Core p1 p2 p3 tFine = 0
  · simp [h]
  · simp [h, checkedDiv64]

/-- C7: in the BMP280 and BME280 pressure compensation, if the 64-bit
intermediate `var1` is exactly zero after the `dig_P1` multiplication step,
the function returns pressure 0 with nil error instead of dividing by
`var1`; the division is never executed with a zero divisor (the computation
always produces `some` value). -/
theorem bmp280_bme280_pressure_zero_divisor_guard
    (c : CoeffBMP280) (cE : CoeffBME280) (ut up : Int) :
    (SensorBMP280.compPressureMult10Pa c ut up).isSome = true ∧
    (pressVar1Core c.dig_P1 c.dig_P2 c.dig_P3 (SensorBMP280.tFine c ut) = 0 →
      SensorBMP280.compPressureMult10Pa c ut up = some 0) ∧
    (SensorBME280.compPressureMult10Pa cE ut up).isSome = true ∧
    (pressVar1Core cE.dig_P1 cE.dig_P2 cE.dig_P3 (SensorBME280.tFine cE ut) = 0 →
      SensorBME280.compPressureMult10Pa cE ut up = some 0) :=
  ⟨(pressureMult10PaCore_total c.dig_P1 c.dig_P2 c.dig_P3 c.dig_P4 c.dig_P5
      c.dig_P6 c.dig_P7 c.dig_P8 c.dig_P9 (SensorBMP280.tFine c ut) up).1,
   (pressureMult10PaCore_total c.dig_P1 c.dig_P2 c.dig_P3 c.dig_P4 c.dig_P5
      c.dig_P6 c.dig_P7 c.dig_P8 c.dig_P9 (SensorBMP280.tFine c ut) up).2,
   (pressureMult10PaCore_total cE.dig_P1 cE.dig_P2 cE.dig_P3 cE.dig_P4 cE.dig_P5
      cE.dig_P6 cE.dig_P7 cE.dig_P8 cE.dig_P9 (SensorBME280.tFine cE ut) up).1,
   (pressureMult10PaCore_total cE.dig_P1 cE.dig_P2 cE.dig_P3 cE.dig_P4 cE.dig_P5
      cE.dig_P6 cE.dig_P7 cE.dig_P8 cE.dig_P9 (SensorBME280.tFine cE ut) up).2⟩

/-- Witness for C7: on an erased (all-zero) coefficient block `dig_P1 = 0`
forces `var1 = 0`, and both pressure computations return `some 0`. -/
theorem bmp280_bme280_pressure_zero_divisor_guard_witness :
    SensorBMP280.compPressureMult10Pa zeroCoeffBMP280 0 0 = some 0 ∧
    SensorBME280.compPressureMult10Pa zeroCoeffBME280 0 0 = some 0 := by
  obtain ⟨-, h2, -, h4⟩ :=
    bmp280_bme280_pressure_zero_divisor_guard zeroCoeffBMP280 zeroCoeffBME280 0 0
  exact ⟨h2 (by decide), h4 (by decide)⟩

/-- One step of the check chain. -/
theorem runChecks_cons (coef : Nat) (name : String) (tl : List (Nat × String)) :
    runChecks ((coef, name) :: tl) =
      if coef = 0 ∨ coef = 0xFFFF then Except.error name else runChecks tl := by
  simp only [runChecks, checkCoefficient]
  split_ifs <;> rfl

/-- The check chain succeeds iff no checked value is a sentinel. -/
theorem runChecks_ok_iff (l : List (Nat × String)) :
    runChecks l = Except.ok () ↔ ∀ p ∈ l, p.1 ≠ 0 ∧ p.1 ≠ 0xFFFF := by
  induction l with
  | nil => simp [runChecks]
  | cons hd tl ih =>
    obtain ⟨coef, name⟩ := hd
    rw [runChecks_cons]
    split_ifs with h
    · constructor
      · intro hc
        cases hc
      · intro hall
        have h2 := hall (coef, name) (List.mem_cons_self _ _)
        simp only at h2
        omega
    · push_neg at h
      rw [ih]
      constructor
      · intro hall p hp
        rcases List.mem_cons.mp hp with heq | hp2
        · subst heq
          exact h
        · exact hall p hp2
      · intro hall p hp
        exact hall p (List.mem_cons_of_mem _ hp)

/-- A failing check chain names a sentinel-valued checked coefficient. -/
theorem runChecks_error_names_sentinel (l : List (Nat × String)) (e : String)
    (h : runChecks l = Except.error e) :
    ∃ p ∈ l, (p.1 = 0 ∨ p.1 = 0xFFFF) ∧ p.2 = e := by
  induction l with
  | nil => simp [runChecks] at h
  | cons hd tl ih =>
    obtain ⟨coef, name⟩ := hd
    rw [runChecks_cons] at h
    split_ifs at h with hc
    · injection h with hname
      exact ⟨(coef, name), List.mem_cons_self _ _, hc, hname⟩
    · obtain ⟨p, hp, hbad, hname⟩ := ih h
      exact ⟨p, List.mem_cons_of_mem _ hp, hbad, hname⟩

/-- C2 counterexample: `dig_H1` is a coefficient defined by the BME280
calibration layout, yet with its raw byte (register `0xA1`) forced to the
sentinel pattern 0 — and every other coefficient non-sentinel —
`SensorBME280.IsValidCoefficients` returns nil instead of an error naming
`dig_H1`: the humidity coefficients are never checked. -/
theorem bme280_isValid_misses_zero_H1 :
    badH1CoeffBME280.dig_H1 = 0 ∧
    SensorBME280.IsValidCoefficients badH1CoeffBME280 = Except.ok () :=
  ⟨rfl, rfl⟩

/-- C2 (amended): for every variant, `IsValidCoefficients` applies the
sentinel test to its fixed *checked* coefficient list (all coefficients of
the layout except BME280's `dig_H1…dig_H6` and BMP388's `PAR_P4`), under the
source's `uint16` casts: it returns nil iff no checked value is `0x0000` or
`0xFFFF`, and any returned error names a checked coefficient whose value is
one of the two sentinels. -/
theorem isValidCoefficients_checked_sentinel_characterization
    (c1 : CoeffBMP180) (c2 : CoeffBMP280) (c3 : CoeffBME280) (c4 : CoeffBMP388) :
    (SensorBMP180.IsValidCoefficients c1 = Except.ok () ↔
      ∀ p ∈ checkedCoefficientsBMP180 c1, p.1 ≠ 0 ∧ p.1 ≠ 0xFFFF) ∧
    (∀ e, SensorBMP180.IsValidCoefficients c1 = Except.error e →
      ∃ p ∈ checkedCoefficientsBMP180 c1, (p.1 = 0 ∨ p.1 = 0xFFFF) ∧ p.2 = e) ∧
    (SensorBMP280.IsValidCoefficients c2 = Except.ok () ↔
      ∀ p ∈ checkedCoefficientsBMP280 c2, p.1 ≠ 0 ∧ p.1 ≠ 0xFFFF) ∧
    (∀ e, SensorBMP280.IsValidCoefficients c2 = Except.error e →
      ∃ p ∈ checkedCoefficientsBMP280 c2, (p.1 = 0 ∨ p.1 = 0xFFFF) ∧ p.2 = e) ∧
    (SensorBME280.IsValidCoefficients c3 = Except.ok () ↔
      ∀ p ∈ checkedCoefficientsBME280 c3, p.1 ≠ 0 ∧ p.1 ≠ 0xFFFF) ∧
    (∀ e, SensorBME280.IsValidCoefficients c3 = Except.error e →
      ∃ p ∈ checkedCoefficientsBME280 c3, (p.1 = 0 ∨ p.1 = 0xFFFF) ∧ p.2 = e) ∧
    (SensorBMP388.IsValidCoefficients c4 = Except.ok () ↔
      ∀ p ∈ checkedCoefficientsBMP388 c4, p.1 ≠ 0 ∧ p.1 ≠ 0xFFFF) ∧
    (∀ e, SensorBMP388.IsValidCoefficients c4 = Except.error e →
      ∃ p ∈ checkedCoefficientsBMP388 c4, (p.1 = 0 ∨ p.1 = 0xFFFF) ∧ p.2 = e) :=
  ⟨runChecks_ok_iff _, fun e => runChecks_error_names_sentinel _ e,
   runChecks_ok_iff _, fun e => runChecks_error_names_sentinel _ e,
   runChecks_ok_iff _, fun e => runChecks_error_names_sentinel _ e,
   runChecks_ok_iff _, fun e => runChecks_error_names_sentinel _ e⟩

/-- Witness for the amended C2 theorem: a known-good BME280 vector passes,
and an all-zero BMP280 block fails naming `dig_T1`, a sentinel-valued
checked coefficient. -/
theorem isValidCoefficients_checked_sentinel_characterization_witness :
    SensorBME280.IsValidCoefficients sampleCoeffBME280 = Except.ok () ∧
    ∃ p ∈ checkedCoefficientsBMP280 zeroCoeffBMP280,
      (p.1 = 0 ∨ p.1 = 0xFFFF) ∧ p.2 = "dig_T1" := by
  obtain ⟨h1, h2, h3, h4, h5, h6, h7, h8⟩ :=
    isValidCoefficients_checked_sentinel_characterization
      sampleCoeffBMP180 zeroCoeffBMP280 sampleCoeffBME280 sampleCoeffBMP388
  exact ⟨h5.mpr (by decide), h4 "dig_T1" rfl⟩

/-- The poll loop calls `IsBusy` at most `calls + n` times total. -/
theorem waitForCompletionAux_calls_le (f : Nat → Except Err Bool) (n calls : Nat) :
    (waitForCompletionAux f n calls).2 ≤ calls + n := by
  induction n generalizing calls with
  | zero => simp [waitForCompletionAux]
  | succ n ih =>
    simp only [waitForCompletionAux]
    split
    · simp
    · have := ih (calls + 1)
      omega
    · simp

/-- If every poll reports busy, the loop runs to exhaustion and reports a
timeout (`true`) with nil error. -/
theorem waitForCompletionAux_allBusy (f : Nat → Except Err Bool) (n calls : Nat)
    (hbusy : ∀ j, j < n → f (calls + j) = Except.ok true) :
    waitForCompletionAux f n calls = (Except.ok true, calls + n) := by
  induction n generalizing calls with
  | zero => simp [waitForCompletionAux]
  | succ n ih =>
    have h0 : f calls = Except.ok true := by
      have := hbusy 0 (Nat.succ_pos n)
      simpa using this
    simp only [waitForCompletionAux]
    rw [h0]
    have hrest : ∀ j, j < n → f (calls + 1 + j) = Except.ok true := by
      intro j hj
      have := hbusy (j + 1) (by omega)
      have harg : calls + (j + 1) = calls + 1 + j := by omega
      rwa [harg] at this
    rw [ih (calls + 1) hrest]
    refine Prod.ext rfl ?_
    simp
    omega

/-- The first non-busy answer (or the first bus error) after `i` busy
answers stops the loop immediately, after exactly `i + 1` calls. -/
theorem waitForCompletionAux_first_decides (f : Nat → Except Err Bool)
    (n calls i : Nat) (hi : i < n)
    (hbusy : ∀ j, j < i → f (calls + j) = Except.ok true) :
    (f (calls + i) = Except.ok false →
      waitForCompletionAux f n calls = (Except.ok false, calls + i + 1)) ∧
    (∀ e, f (calls + i) = Except.error e →
      waitForCompletionAux f n calls = (Except.error e, calls + i + 1)) := by
  induction n generalizing calls i with
  | zero => omega
  | succ n ih =>
    cases i with
    | zero =>
      constructor
      · intro hf
        simp only [Nat.add_zero] at hf
        simp only [waitForCompletionAux]
        rw [hf]
      · intro e hf
        simp only [Nat.add_zero] at hf
        simp only [waitForCompletionAux]
        rw [hf]
    | succ i =>
      have h0 : f calls = Except.ok true := by
        have := hbusy 0 (Nat.succ_pos i)
        simpa using this
      have hrest : ∀ j, j < i → f (calls + 1 + j) = Except.ok true := by
        intro j hj
        have := hbusy (j + 1) (by omega)
        have harg : calls + (j + 1) = calls + 1 + j := by omega
        rwa [harg] at this
      have harg2 : calls + (i + 1) = calls + 1 + i := by omega
      obtain ⟨ihA, ihB⟩ := ih (calls + 1) i (by omega) hrest
      constructor
      · intro hf
        rw [harg2] at hf
        simp only [waitForCompletionAux]
        rw [h0, ihA hf]
        refine Prod.ext rfl ?_
        simp
        omega
      · intro e hf
        rw [harg2] at hf
        simp only [waitForCompletionAux]
        rw [h0, ihB e hf]
        refine Prod.ext rfl ?_
        simp
        omega

/-- C5: `waitForCompletion` calls `IsBusy` at most 10 times; a not-busy
answer after `i` busy answers returns `(timeout=false, nil)` immediately
(after `i + 1` calls); a bus error is returned immediately; and ten busy
answers return `(timeout=true, nil)` rather than looping indefinitely. -/
theorem waitForCompletion_bounded_polls (f : Nat → Except Err Bool) :
    (waitForCompletion f).2 ≤ 10 ∧
    (∀ i, i < 10 → (∀ j, j < i → f j = Except.ok true) →
      (f i = Except.ok false → waitForCompletion f = (Except.ok false, i + 1)) ∧
      (∀ e, f i = Except.error e → waitForCompletion f = (Except.error e, i + 1))) ∧
    ((∀ i, i < 10 → f i = Except.ok true) →
      waitForCompletion f = (Except.ok true, 10)) := by
  refine ⟨?_, ?_, ?_⟩
  · simpa using waitForCompletionAux_calls_le f 10 0
  · intro i hi hbusy
    have hbusy0 : ∀ j, j < i → f (0 + j) = Except.ok true := by
      intro j hj
      simpa using hbusy j hj
    obtain ⟨hA, hB⟩ := waitForCompletionAux_first_decides f 10 0 i hi hbusy0
    constructor
    · intro hf
      have := hA (by simpa using hf)
      simpa using this
    · intro e hf
      have := hB e (by simpa using hf)
      simpa using this
  · intro hb
    have := waitForCompletionAux_allBusy f 10 0 (fun j hj => by simpa using hb j hj)
    simpa using this

/-- Witness for C5: the always-busy oracle yields a timeout with nil error
after exactly 10 polls. -/
theorem waitForCompletion_bounded_polls_witness :
    waitForCompletion (fun _ => Except.ok true) = (Except.ok true, 10) ∧
    (waitForCompletion (fun _ => Except.ok true)).2 ≤ 10 := by
  obtain ⟨h1, -, h3⟩ := waitForCompletion_bounded_polls (fun _ => Except.ok true)
  exact ⟨h3 (fun i _ => rfl), h1⟩

/-- C6: when the sensor reports busy on every poll (a permanent-busy status
register) and the bus itself works, `SensorBMP280.readUncompTemprature` does
not surface the timeout as an error: the timeout flag of `waitForCompletion`
is discarded, the temperature output registers are read regardless, and the
assembled raw value is returned with nil error. -/
theorem bmp280_timeout_reads_and_returns_value (bus : Bus)
    (accuracy : AccuracyMode) (b : Byte) (buf : Nat → Byte)
    (hw : ∀ v, bus.writeRegU8 0xF4 v = Except.ok ())
    (hs : bus.readRegU8 0xF3 = Except.ok b)
    (hbusy : b.val &&& 0x8 ≠ 0)
    (hr : bus.readRegBytes 0xFA 3 = Except.ok buf) :
    SensorBMP280.readUncompTemprature bus accuracy =
      Except.ok (rawSample20 buf) := by
  have hIsBusy : SensorBMP280.IsBusy bus = Except.ok true := by
    unfold SensorBMP280.IsBusy
    rw [hs]
    simp [hbusy]
  have hwait : waitForCompletion (fun _ => SensorBMP280.IsBusy bus) =
      (Except.ok true, 10) := by
    simpa using waitForCompletionAux_allBusy
      (fun _ => SensorBMP280.IsBusy bus) 10 0 (fun j _ => hIsBusy)
  unfold SensorBMP280.readUncompTemprature
  rw [hw, hwait, hr]

/-- Witness for C6: on the always-busy bus stub the raw value assembled from
bytes `0x12 0x12 0x12` is returned with nil error. -/
theorem bmp280_timeout_reads_and_returns_value_witness :
    SensorBMP280.readUncompTemprature busyBus AccuracyMode.ACCURACY_STANDARD =
      Except.ok 74017 := by
  have h := bmp280_timeout_reads_and_returns_value busyBus
    AccuracyMode.ACCURACY_STANDARD 0x08 (fun _ => 0x12)
    (fun v => rfl) rfl (by decide) rfl
  have hval : rawSample20 (fun _ => (0x12 : Byte)) = 74017 := by decide
  rw [h, hval]

/-- `exceptIsOk` detects exactly the `ok` results. -/
theorem exceptIsOk_iff {α : Type} (x : Except Err α) :
    exceptIsOk x = true ↔ ∃ a, x = Except.ok a := by
  cases x <;> simp [exceptIsOk]

set_option maxRecDepth 8192 in
/-- C9: `NewBMP` returns a handle iff the identity-register read succeeds,
the variant's `RecognizeSignature` accepts the read signature, and the
calibration-block read succeeds; the accepted signatures are exactly
BMP180: `0x55`; BMP280: `0x58`, `0x56`, `0x57`; BME280: `0x60`;
BMP388: `0x50`; and in every failure case `NewBMP` returns a non-nil error
(`Except.error`) and no handle. -/
theorem newBMP_success_characterization (st : SensorType) (bus : Bus) :
    ((∃ h, NewBMP st bus = Except.ok h) ↔
      ∃ id, readSensorIDFor st bus = Except.ok id ∧
        (∃ s, recognizeSignatureFor st id = Except.ok s) ∧
        (∃ cd, readCoefficientsFor st bus = Except.ok cd)) ∧
    (∀ id : Byte, (∃ s, recognizeSignatureFor st id = Except.ok s) ↔
      id.val ∈ acceptedSignatures st) ∧
    ((¬ ∃ h, NewBMP st bus = Except.ok h) →
      ∃ e, NewBMP st bus = Except.error e) := by
  refine ⟨?_, ?_, ?_⟩
  · unfold NewBMP
    cases h1 : readSensorIDFor st bus with
    | error e => simp
    | ok id =>
      cases h2 : recognizeSignatureFor st id with
      | error e => simp [h2]
      | ok s =>
        cases h3 : readCoefficientsFor st bus with
        | error e => simp [h2, h3]
        | ok cd => simp [h2, h3]
  · intro id
    rw [← exceptIsOk_iff]
    revert id
    cases st <;> decide
  · intro hno
    cases hN : NewBMP st bus with
    | error e => exact ⟨e, rfl⟩
    | ok h => exact absurd ⟨h, hN⟩ hno

/-- Witness for C9: construction succeeds on a fully functional bus stub
whose identity register answers the BMP280 production signature `0x58`. -/
theorem newBMP_success_characterization_witness :
    (∃ h, NewBMP SensorType.BMP280 goodBus = Except.ok h) ∧
    (0x58 : Nat) ∈ acceptedSignatures SensorType.BMP280 := by
  obtain ⟨h1, h2, h3⟩ := newBMP_success_characterization SensorType.BMP280 goodBus
  refine ⟨h1.mpr ⟨0x58, rfl, ⟨"BMP280", rfl⟩, ⟨_, rfl⟩⟩, by decide⟩

end Bsbmp
